import Mathlib

/-!
Verification development for the Chef Digital recipe pipeline.

The repository ships the design documents and the Phase-1 scaffolding; the
pipeline components (extractor, normalizer, store, discovery agent) are
specified in `spec.md` and in the blueprint documents, with concrete code
for the ingest route handler, the Zod input schema, the Prisma `Recipe`
model and the Auth.js `signIn` callback appearing verbatim in the repo
files.  Definitions below embed that code where it exists and are
otherwise modelled from the spec, as marked in each doc comment.
-/

set_option maxHeartbeats 1000000

namespace ChefDigital

/-- Error taxonomy of spec §7, plus two kinds the embedding needs:
`ValidationError` models a Zod parse failure at the route boundary
(`RecipeInput.parse` throwing), and `InvalidRecordError` models the store
rejecting a record that breaks the §3 field invariants (the spec names no
error kind for that case). -/
inductive Err where
  | EmptyInputError
  | ExtractionError
  | UnsupportedSourceError
  | TranscriptUnavailableError
  | MalformedResponseError
  | DuplicateTitleError
  | NotFoundError
  | NoResultsError
  | FetchError
  | ValidationError
  | InvalidRecordError
deriving DecidableEq, Repr

/-- One ingredient category: a name plus an ordered sequence of ingredient
strings (spec §3, `ingredients`). -/
structure Category where
  name : String
  items : List String
deriving DecidableEq, Repr

/-- The unpersisted payload of a recipe as produced by normalization:
everything of the Prisma `Recipe` model except the fields the store
assigns (`id`, `createdAt`, `updatedAt`). -/
structure RecipeData where
  title : String
  sourceUrl : Option String
  ingredients : List Category
  instructions : List String
deriving DecidableEq, Repr

/-- The persisted entity, embedding the Prisma `Recipe` model of
`src/unnamed/part_000` lines 158–166: `id` (uuid, assigned at creation),
unique `title`, optional `sourceUrl`, `ingredients` and `instructions`
as structured data, and the two store-managed timestamps.  Note the model
has no field that could hold image or video bytes. -/
structure Recipe where
  id : String
  title : String
  sourceUrl : Option String
  ingredients : List Category
  instructions : List String
  createdAt : Nat
  updatedAt : Nat
deriving DecidableEq, Repr

/-- The store state: the single relational `recipes` table, in insertion
order. -/
abbrev Store := List Recipe

/-- Modelled from the spec: §3 invariants on a persisted record — `title`
non-empty, `ingredients` non-empty with no empty category, `instructions`
non-empty. -/
def validFields (d : RecipeData) : Bool :=
  d.title ≠ "" && !d.ingredients.isEmpty &&
    d.ingredients.all (fun c => !c.items.isEmpty) && !d.instructions.isEmpty

/-- Modelled from the spec: the invariant check shared by `create` and
`update` (§4.3 "re-validates the merged record under the same invariants
as `create`"): a duplicate title among `others` fails with
`DuplicateTitleError`; a record breaking the §3 field invariants fails
with `InvalidRecordError`. -/
def checkInvariants (others : Store) (d : RecipeData) : Option Err :=
  if others.any (fun r => r.title = d.title) then some .DuplicateTitleError
  else if !validFields d then some .InvalidRecordError
  else none

/-- Build the persisted record from its payload: the store assigns `id`
at creation and sets both timestamps to the insertion time (spec §3). -/
def mkRecipe (now : Nat) (id : String) (d : RecipeData) : Recipe :=
  ⟨id, d.title, d.sourceUrl, d.ingredients, d.instructions, now, now⟩

/-- Modelled from the spec: `RecipeStore.create` (§4.3) — fails with
`DuplicateTitleError` if the title already exists (the Prisma
`@unique` constraint on `title`), otherwise validates and appends;
a duplicate insert never overwrites the existing record. -/
def create (now : Nat) (id : String) (d : RecipeData) (st : Store) :
    Except Err Store :=
  match checkInvariants st d with
  | some e => .error e
  | none => .ok (st ++ [mkRecipe now id d])

/-- Field-wise update payload for the update flow: spec §4.5 "full
replace-by-field" — each present field fully replaces the stored one. -/
structure UpdateFields where
  title : Option String
  sourceUrl : Option (Option String)
  ingredients : Option (List Category)
  instructions : Option (List String)
deriving Repr

/-- Apply user-edited fields over the loaded record (spec §4.5 Update
flow), producing the merged payload to re-validate. -/
def applyFields (r : Recipe) (f : UpdateFields) : RecipeData :=
  ⟨f.title.getD r.title, f.sourceUrl.getD r.sourceUrl,
    f.ingredients.getD r.ingredients, f.instructions.getD r.instructions⟩

/-- Modelled from the spec: `RecipeStore.update` (§4.3) — fails with
`NotFoundError` if `id` is absent; otherwise merges the fields into the
loaded record, re-validates the merged record under exactly the
invariants of `create` (title uniqueness checked against the other
records), and replaces the stored record in place, refreshing
`updatedAt`. -/
def update (now : Nat) (id : String) (f : UpdateFields) (st : Store) :
    Except Err Store :=
  match st.find? (fun r => r.id = id) with
  | none => .error .NotFoundError
  | some old =>
    let merged := applyFields old f
    match checkInvariants (st.filter (fun r => r.id ≠ id)) merged with
    | some e => .error e
    | none =>
      .ok (st.map (fun r =>
        if r.id = id then
          ⟨old.id, merged.title, merged.sourceUrl, merged.ingredients,
            merged.instructions, old.createdAt, now⟩
        else r))

/-- Modelled from the spec: `findByTitle` (§4.3) — exact title match. -/
def findByTitle (title : String) (st : Store) : Option Recipe :=
  st.find? (fun r => r.title = title)

/-- Whether `needle` occurs as a contiguous substring of `hay`. -/
def subOf (needle hay : List Char) : Bool :=
  needle.isPrefixOf hay ||
    match hay with
    | [] => false
    | _ :: t => subOf needle t

/-- String-level substring test used by the ingredient search tier. -/
def containsSub (hay needle : String) : Bool :=
  subOf needle.toList hay.toList

/-- Modelled from the spec: `searchByIngredient` (§4.3) — a
substring/full-text match of the term over the recipes' ingredient
text. -/
def searchByIngredient (term : String) (st : Store) : List Recipe :=
  st.filter (fun r =>
    r.ingredients.any (fun c => c.items.any (fun i => containsSub i term)))

/-- Modelled from the spec: `listAll` (§4.3) — every recipe. -/
def listAll (st : Store) : List Recipe := st

/-- Modelled from the spec: the three-tier `search` of §4.3 / blueprint
Phase 4, instrumented with a flag recording whether the ingredient-search
tier was invoked: exact title match first; on a hit, return it without
running the ingredient tier; otherwise the ingredient substring search;
if that is also empty, the full list. -/
def searchTrace (query : String) (st : Store) : List Recipe × Bool :=
  match findByTitle query st with
  | some r => ([r], false)
  | none =>
    let hits := searchByIngredient query st
    (if hits.isEmpty then listAll st else hits, true)

/-- The search operation exposed to callers (result only). -/
def search (query : String) (st : Store) : List Recipe :=
  (searchTrace query st).1

/-- One result of the web-search endpoint (spec §6). -/
structure SearchResult where
  url : String
  snippet : String

/-- The external collaborators of spec §6, passed explicitly: the OCR
engine, the video-provider whitelist and transcript service, the LLM chat
endpoint, the web-search endpoint and the page fetcher.  Image payloads
are byte lists; a `none` from `getTranscript`/`fetchPage` models the
service failing. -/
structure Env where
  ocr : List Nat → String
  supportedVideo : String → Bool
  getTranscript : String → Option String
  complete : String → String
  searchWeb : String → List SearchResult
  fetchPage : String → Option String

/-- Extractor input: raw text, raw image bytes, or a video URL — for
video the payload is a URL only, never a file (spec §4.1). -/
inductive ExtractInput where
  | text (payload : String)
  | image (bytes : List Nat)
  | video (url : String)

/-- Remove leading and trailing whitespace from a character list. -/
def trimChars (l : List Char) : List Char :=
  ((l.dropWhile Char.isWhitespace).reverse.dropWhile Char.isWhitespace).reverse

/-- Trimming as the extractor applies it (JavaScript `trim`): leading and
trailing whitespace removed. -/
def strTrim (s : String) : String :=
  (trimChars s.toList).asString

/-- Modelled from the spec: `extract` (§4.1).  `text`: the payload
trimmed, `EmptyInputError` if blank after trim; `image`: the OCR output,
`ExtractionError` if the recognized text is blank; `video`:
`UnsupportedSourceError` for an unsupported provider, else the transcript
or `TranscriptUnavailableError`. -/
def extract (env : Env) : ExtractInput → Except Err String
  | .text p =>
    let t := strTrim p
    if t = "" then .error .EmptyInputError else .ok t
  | .image b =>
    let t := env.ocr b
    if strTrim t = "" then .error .ExtractionError else .ok t
  | .video u =>
    if !env.supportedVideo u then .error .UnsupportedSourceError
    else
      match env.getTranscript u with
      | none => .error .TranscriptUnavailableError
      | some t => .ok t

/-- A model-reply line, split into its indentation depth and its trimmed
content; the parser's whitespace tolerance (spec §4.2) lives here. -/
structure Line where
  indent : Nat
  content : String
deriving DecidableEq, Repr

/-- Split a character list at every occurrence of the separator `c`. -/
def splitOnChar (c : Char) : List Char → List (List Char)
  | [] => [[]]
  | x :: t =>
    let r := splitOnChar c t
    if x = c then [] :: r
    else
      match r with
      | [] => [[x]]
      | h :: t2 => (x :: h) :: t2

/-- Split a reply into lines, recording each line's leading-whitespace
depth and trimming the content. -/
def toLines (reply : String) : List Line :=
  (splitOnChar '\n' reply.toList).map (fun cs =>
    let t := cs.dropWhile Char.isWhitespace
    ⟨cs.length - t.length, ((t.reverse.dropWhile Char.isWhitespace).reverse).asString⟩)

/-- Remove a leading list dash ("- " or "-") from a line's content,
together with the whitespace after it. -/
def stripDashChars : List Char → List Char
  | '-' :: t => t.dropWhile Char.isWhitespace
  | l => l

/-- String form of `stripDashChars`. -/
def stripDash (s : String) : String :=
  (stripDashChars s.toList).asString

/-- A dashed list item of the reply layout. -/
def isItem (l : Line) : Bool :=
  match l.content.toList with
  | '-' :: _ => true
  | _ => false

/-- The line marking the section `name` in the reply layout, e.g.
"- Ingredients:" or "Ingredients:". -/
def isMarker (l : Line) (name : String) : Bool :=
  stripDash l.content = name ++ ":"

/-- A line marking any of the four sections of the fixed reply layout. -/
def isAnyMarker (l : Line) : Bool :=
  isMarker l ("Title") || isMarker l ("Source") ||
    isMarker l ("Ingredients") || isMarker l ("Instructions")

/-- The lines of section `name`: everything after its marker line up to
the next section marker. -/
def sectionOf (ls : List Line) (name : String) : List Line :=
  (((ls.dropWhile (fun l => !isMarker l name)).drop 1).takeWhile
    (fun l => !isAnyMarker l))

/-- The title carried by the reply: the value after "Title:" on the first
line carrying one (a blank value counts as a missing title). -/
def titleOf (ls : List Line) : Option String :=
  match ls.find? (fun l =>
      ("Title:").toList.isPrefixOf (stripDash l.content).toList) with
  | none => none
  | some l =>
    let v := (trimChars ((stripDash l.content).toList.drop 6)).asString
    if v = "" then none else some v

/-- Fold the dashed items of the Ingredients section into categories:
an item indented deeper than the current category line is one of its
ingredients; an item at the category depth or shallower starts the next
category.  The accumulator carries the current category's depth, name and
reversed items. -/
def groupCatsAux : List Line → Nat → String → List String → List Category
  | [], _, n, its => [⟨n, its.reverse⟩]
  | l :: rest, ci, n, its =>
    if isItem l then
      if ci < l.indent then groupCatsAux rest ci n (stripDash l.content :: its)
      else ⟨n, its.reverse⟩ :: groupCatsAux rest l.indent (stripDash l.content) []
    else groupCatsAux rest ci n its

/-- The categorized ingredients of a section: the first dashed item opens
the first category; non-item lines are skipped. -/
def groupCats : List Line → List Category
  | [] => []
  | l :: rest =>
    if isItem l then groupCatsAux rest l.indent (stripDash l.content) []
    else groupCats rest

/-- A numbered step line of the Instructions section. -/
def isStep (l : Line) : Bool :=
  match l.content.toList with
  | c :: _ => c.isDigit
  | [] => false

/-- The text of a numbered step: the content after the number and the
dot, trimmed. -/
def stepText (l : Line) : String :=
  let s := l.content.toList.dropWhile (fun c => c.isDigit)
  (trimChars (match s with | '.' :: t => t | _ => s)).asString

/-- The numbered instruction steps of a reply, in order. -/
def stepsOf (ls : List Line) : List String :=
  ((sectionOf ls ("Instructions")).filter isStep).map stepText

/-- A reply parsed against the fixed layout: the title, the categorized
ingredients, the numbered steps.  The source URL is not taken from the
reply: per the §4.2 contract it is the normalizer's argument that becomes
the recipe's `sourceUrl`. -/
structure ParsedRecipe where
  title : String
  ingredients : List Category
  instructions : List String
deriving DecidableEq, Repr

/-- Modelled from the spec: `parseRecipeResponse` (named in the
blueprint's `groqFormatRecipe` snippet but not implemented in the repo) —
parses the model's reply against the exact expected layout (§4.2),
tolerant of whitespace, and fails with `MalformedResponseError` when a
required section (title, at least one ingredient category, at least one
instruction step) is missing. -/
def parseRecipeResponse (reply : String) : Except Err ParsedRecipe :=
  let ls := toLines reply
  match titleOf ls with
  | none => .error .MalformedResponseError
  | some t =>
    let cats := groupCats (sectionOf ls ("Ingredients"))
    let steps := stepsOf ls
    if cats.isEmpty then .error .MalformedResponseError
    else if steps.isEmpty then .error .MalformedResponseError
    else .ok ⟨t, cats, steps⟩

/-- The fixed instruction block of the blueprint's `groqFormatRecipe`,
embedding the extracted text and the optional source URL (`Source:` falls
back to "Not provided"). -/
def buildPrompt (text : String) (sourceUrl : Option String) : String :=
  "You are Chef Digital. Convert the text below into a structured recipe format:\nText: \"\"\"" ++
    text ++ "\"\"\"\nSource: " ++ sourceUrl.getD ("Not provided") ++
    "\nReturn the result in this exact format:\n- Title:\n- Source:\n- Ingredients:\n    - [Category 1]\n        - [Ingredient 1]\n    - [Category 2]\n        - [Ingredient 2]\n- Instructions:\n    1. [Step 1]\n    2. [Step 2]"

/-- The normalizer, embedding the blueprint's `groqFormatRecipe`: one
model request on the fixed prompt, the reply parsed by
`parseRecipeResponse`; the caller's `sourceUrl` becomes the recipe's
`sourceUrl` (§4.2 contract). -/
def groqFormatRecipe (env : Env) (text : String) (sourceUrl : Option String) :
    Except Err RecipeData :=
  match parseRecipeResponse (env.complete (buildPrompt text sourceUrl)) with
  | .error e => .error e
  | .ok p => .ok ⟨p.title, sourceUrl, p.ingredients, p.instructions⟩

/-- A raw ingest request body before validation: each field either absent
or a string. -/
structure RawBody where
  title : Option String
  sourceUrl : Option String
  extractedText : Option String

/-- Split a URL at the first "://" occurrence into scheme and
remainder. -/
def splitScheme : List Char → Option (List Char × List Char)
  | ':' :: '/' :: '/' :: t => some ([], t)
  | [] => none
  | c :: t =>
    match splitScheme t with
    | none => none
    | some (a, b) => some (c :: a, b)

/-- Modelled from zod's `z.string().url()` check (the WHATWG URL parse),
simplified to: a non-empty alphabetic scheme, the "://" separator, and a
non-empty remainder. -/
def isValidUrl (s : String) : Bool :=
  match splitScheme s.toList with
  | some (scheme, rest) =>
    !scheme.isEmpty && scheme.all (fun c => c.isAlpha) && !rest.isEmpty
  | none => false

/-- A validated ingest request body (the output type of
`RecipeInput.parse`). -/
structure RecipeInput where
  title : Option String
  sourceUrl : Option String
  extractedText : String

/-- Embeds `RecipeInput.parse` of the ingest route
(src/unnamed/part_000 lines 176–180): `title` an optional string,
`sourceUrl` an optional string that must be a well-formed URL when
present, `extractedText` a required string with no further constraint;
a failing check throws, modelled as `ValidationError`. -/
def parseRecipeInput (b : RawBody) : Except Err RecipeInput :=
  match b.extractedText with
  | none => .error .ValidationError
  | some t =>
    match b.sourceUrl with
    | none => .ok ⟨b.title, none, t⟩
    | some u =>
      if isValidUrl u then .ok ⟨b.title, some u, t⟩
      else .error .ValidationError

/-- Embeds the ingest route `handler` (src/unnamed/part_000 lines
182–187): validate the body with `RecipeInput.parse`, normalize the
extracted text with `groqFormatRecipe`, persist with the store's create.
Instrumented with two flags: whether normalization was invoked and
whether the store's create was invoked. -/
def handlerTrace (env : Env) (now : Nat) (id : String) (body : RawBody)
    (st : Store) : Except Err Store × Bool × Bool :=
  match parseRecipeInput body with
  | .error e => (.error e, false, false)
  | .ok parsed =>
    match groqFormatRecipe env parsed.extractedText parsed.sourceUrl with
    | .error e => (.error e, true, false)
    | .ok formatted => (create now id formatted st, true, true)

/-- The ingest route's resulting store state (trace flags dropped). -/
def handler (env : Env) (now : Nat) (id : String) (body : RawBody)
    (st : Store) : Except Err Store :=
  (handlerTrace env now id body st).1

/-- Modelled from the spec: the Add flow of the Ingestion Orchestrator
(§4.5): extract, then normalize, then create; any stage failure aborts
the whole flow and nothing partial is stored. -/
def ingestAdd (env : Env) (now : Nat) (id : String) (inp : ExtractInput)
    (sourceUrl : Option String) (st : Store) : Except Err Store :=
  match extract env inp with
  | .error e => .error e
  | .ok text =>
    match groqFormatRecipe env text sourceUrl with
    | .error e => .error e
    | .ok d => create now id d st

/-- Strip markup: drop every character between '<' and '>' inclusive;
the flag records being inside a tag. -/
def stripTags : List Char → Bool → List Char
  | [], _ => []
  | c :: t, inTag =>
    if inTag then stripTags t (c ≠ '>')
    else if c = '<' then stripTags t true
    else c :: stripTags t false

/-- Modelled from the spec: the Discovery Agent's readable-body-text
extraction (§4.4 "strips markup/boilerplate"). -/
def readableText (html : String) : String :=
  (stripTags html.toList false).asString

/-- Modelled from the spec: `discover` (§4.4) — one web-search request;
`NoResultsError` if it returns nothing; otherwise fetch the top-ranked
result (`FetchError` on failure), extract readable text and delegate to
the normalizer with the result URL as `sourceUrl`, propagating its
errors unchanged.  Instrumented with two flags: whether the page fetch
was invoked and whether normalization was invoked. -/
def discoverTrace (env : Env) (query : String) :
    Except Err RecipeData × Bool × Bool :=
  match env.searchWeb query with
  | [] => (.error .NoResultsError, false, false)
  | top :: _ =>
    match env.fetchPage top.url with
    | none => (.error .FetchError, true, false)
    | some html =>
      (groqFormatRecipe env (readableText html) (some top.url), true, true)

/-- The discover operation's result (trace flags dropped); the returned
recipe is staged, not persisted. -/
def discover (env : Env) (query : String) : Except Err RecipeData :=
  (discoverTrace env query).1

/-- Embeds the Auth.js `signIn` callback of
src/docs/blueprint-phase-1.md lines 150–154:
`return profile?.email === process.env.ALLOWED_EMAIL` — for a configured
(set) `ALLOWED_EMAIL`, an absent email gives `undefined`, and JavaScript
strict equality of `undefined` with a string is false. -/
def signIn (profileEmail : Option String) (allowedEmail : String) : Bool :=
  match profileEmail with
  | some e => e == allowedEmail
  | none => false

/-- A canned well-formed model reply in the exact expected layout: one
title, two ingredient categories, three instruction steps. -/
def goodReply : String :=
  "- Title: Lasagna Classica\n- Source: Not provided\n- Ingredients:\n    - Sauce\n        - tomato\n        - garlic\n    - Pasta\n        - lasagna sheets\n- Instructions:\n    1. Boil pasta\n    2. Layer sauce\n    3. Bake"

/-- A canned model reply with the Instructions section missing. -/
def noInstructionsReply : String :=
  "- Title: Lasagna\n- Ingredients:\n    - Sauce\n        - tomato"

/-- The ingredient categories `goodReply` parses to. -/
def cannedCats : List Category :=
  [⟨"Sauce", ["tomato", "garlic"]⟩, ⟨"Pasta", ["lasagna sheets"]⟩]

/-- The instruction steps `goodReply` parses to. -/
def cannedSteps : List String :=
  ["Boil pasta", "Layer sauce", "Bake"]

/-- The recipe payload the normalizer derives from `goodReply` without a
source URL. -/
def cannedDataNone : RecipeData :=
  ⟨"Lasagna Classica", none, cannedCats, cannedSteps⟩

/-- The recipe payload the normalizer derives from `goodReply` with the
sample source URL. -/
def cannedDataUrl : RecipeData :=
  ⟨"Lasagna Classica", some ("https://example.com/r"), cannedCats, cannedSteps⟩

/-- A concrete environment: constant OCR text, every provider supported,
a fixed transcript, the model always answering `goodReply`, the web
search returning no results and the page fetch failing. -/
def envCanned : Env :=
  ⟨fun _ => "OCR text", fun _ => true, fun _ => some ("transcript"),
    fun _ => goodReply, fun _ => [], fun _ => none⟩

/-- A concrete environment whose model always answers the reply with no
Instructions section. -/
def envNoInstr : Env :=
  ⟨fun _ => "OCR text", fun _ => true, fun _ => some ("transcript"),
    fun _ => noInstructionsReply, fun _ => [], fun _ => none⟩

/-- A concrete stored recipe titled "Lasagna". -/
def lasagnaRec : Recipe :=
  ⟨"id0", "Lasagna", none, [⟨"Main", ["pasta", "garlic"]⟩], ["bake"], 0, 0⟩

/-- A concrete valid recipe payload titled "Lasagna". -/
def lasagnaData : RecipeData :=
  ⟨"Lasagna", none, [⟨"Main", ["pasta"]⟩], ["bake"]⟩

/-- An ingest request body whose extracted text is the empty string. -/
def bodyBlank : RawBody := ⟨none, none, some ("")⟩

/-- An ingest request body carrying a well-formed source URL. -/
def urlBody : RawBody :=
  ⟨none, some ("https://example.com/r"), some ("Tomato pasta")⟩

/-- Every failure of the reply parser is a `MalformedResponseError`. -/
theorem parseRecipeResponse_error_malformed (reply : String) (e : Err)
    (h : parseRecipeResponse reply = .error e) :
    e = .MalformedResponseError := by
  unfold parseRecipeResponse at h
  simp only [] at h
  split at h
  · simp_all
  · split at h
    · simp_all
    · split at h <;> simp_all

/-- Every failure of the normalizer is a `MalformedResponseError`. -/
theorem groqFormatRecipe_error_malformed (env : Env) (t : String)
    (u : Option String) (e : Err)
    (h : groqFormatRecipe env t u = .error e) :
    e = .MalformedResponseError := by
  unfold groqFormatRecipe at h
  cases hp : parseRecipeResponse (env.complete (buildPrompt t u)) <;>
    rw [hp] at h <;> simp at h
  rw [← h]
  exact parseRecipeResponse_error_malformed _ _ hp

/-- The normalizer's successful output carries its `sourceUrl` argument
unchanged. -/
theorem groqFormatRecipe_ok_sourceUrl (env : Env) (t : String)
    (u : Option String) (d : RecipeData)
    (h : groqFormatRecipe env t u = .ok d) : d.sourceUrl = u := by
  unfold groqFormatRecipe at h
  cases hp : parseRecipeResponse (env.complete (buildPrompt t u)) <;>
    rw [hp] at h <;> simp at h
  rw [← h]

/-- The store's create fails only with a duplicate-title or
invalid-record error. -/
theorem create_error_kinds (now : Nat) (id : String) (d : RecipeData)
    (st : Store) (e : Err) (h : create now id d st = .error e) :
    e = .DuplicateTitleError ∨ e = .InvalidRecordError := by
  unfold create checkInvariants at h
  by_cases h1 : st.any (fun r => r.title = d.title) = true
  · simp [h1] at h
    exact Or.inl (by simp_all)
  · by_cases h2 : (!validFields d) = true
    · simp [h1, h2] at h
      exact Or.inr (by simp_all)
    · simp [h1, h2] at h

/-- A successful create appends exactly the new record. -/
theorem create_ok_append (now : Nat) (id : String) (d : RecipeData)
    (st st' : Store) (h : create now id d st = .ok st') :
    st' = st ++ [mkRecipe now id d] := by
  unfold create at h
  cases hc : checkInvariants st d <;> rw [hc] at h <;> simp_all

/-- C1: for every query, the search tries an exact-title match first and
returns a hit without invoking the ingredient tier; if and only if there
is no title hit, the ingredient substring search runs; if and only if
that is also empty, the full unfiltered list is returned. -/
theorem search_three_tier (q : String) (st : Store) :
    (∃ r, findByTitle q st = some r ∧ searchTrace q st = ([r], false)) ∨
    (findByTitle q st = none ∧ searchByIngredient q st ≠ [] ∧
      searchTrace q st = (searchByIngredient q st, true)) ∨
    (findByTitle q st = none ∧ searchByIngredient q st = [] ∧
      searchTrace q st = (listAll st, true)) := by
  cases h : findByTitle q st with
  | some r => exact Or.inl ⟨r, rfl, by simp [searchTrace, h]⟩
  | none =>
    cases hh : searchByIngredient q st with
    | nil =>
      refine Or.inr (Or.inr ⟨rfl, rfl, ?_⟩)
      simp [searchTrace, h, hh]
    | cons a t =>
      refine Or.inr (Or.inl ⟨rfl, by simp, ?_⟩)
      simp [searchTrace, h, hh]

/-- C2 counterexample: with a recipe titled "Lasagna" already stored,
two create calls with that title (ids "id1" and "id2") both fail — no
call succeeds, refuting "exactly one call succeeds" over every store
state. -/
theorem create_same_title_both_fail :
    create 1 ("id1") lasagnaData [lasagnaRec] = .error .DuplicateTitleError ∧
    create 2 ("id2") lasagnaData [lasagnaRec] = .error .DuplicateTitleError :=
  ⟨rfl, rfl⟩

/-- C2 (amended): for every store state with no record of the given
title, a pair of create calls with that title (different ids, the first
record valid) yields one success — the first — and one
`DuplicateTitleError`; afterwards the store holds exactly one record with
that title, the first call's record, unmodified. -/
theorem create_duplicate_title_pair (st : Store) (d1 d2 : RecipeData)
    (id1 id2 : String) (n1 n2 : Nat)
    (hfresh : ∀ r ∈ st, r.title ≠ d1.title)
    (hv : validFields d1 = true)
    (ht : d2.title = d1.title) (_hid : id1 ≠ id2) :
    create n1 id1 d1 st = .ok (st ++ [mkRecipe n1 id1 d1]) ∧
    create n2 id2 d2 (st ++ [mkRecipe n1 id1 d1]) =
      .error .DuplicateTitleError ∧
    (st ++ [mkRecipe n1 id1 d1]).filter (fun r => r.title = d1.title) =
      [mkRecipe n1 id1 d1] := by
  have hany : st.any (fun r => r.title = d1.title) = false := by
    rw [List.any_eq_false]
    intro r hr
    simp [hfresh r hr]
  refine ⟨?_, ?_, ?_⟩
  · simp [create, checkInvariants, hany, hv]
  · have htrue :
        (st ++ [mkRecipe n1 id1 d1]).any (fun r => r.title = d2.title) =
          true := by
      simp [List.any_append, mkRecipe, ht]
    simp [create, checkInvariants, htrue]
  · rw [List.filter_append]
    have h1 : st.filter (fun r => decide (r.title = d1.title)) = [] := by
      rw [List.filter_eq_nil_iff]
      intro r hr
      simp [hfresh r hr]
    simp only [h1, List.nil_append, List.filter]
    simp [mkRecipe]

/-- C2 witness: on the empty store, creating "Lasagna" succeeds and the
immediate second create with the same title fails with
`DuplicateTitleError`, leaving exactly the first record. -/
theorem create_duplicate_title_pair_witness :
    create 3 ("idA") lasagnaData [] = .ok ([] ++ [mkRecipe 3 ("idA") lasagnaData]) ∧
    create 4 ("idB") lasagnaData ([] ++ [mkRecipe 3 ("idA") lasagnaData]) =
      .error .DuplicateTitleError ∧
    ([] ++ [mkRecipe 3 ("idA") lasagnaData]).filter
      (fun r => r.title = lasagnaData.title) = [mkRecipe 3 ("idA") lasagnaData] :=
  create_duplicate_title_pair [] lasagnaData lasagnaData ("idA") ("idB") 3 4
    (by decide) (by decide) rfl (by decide)

/-- C3: for every model reply missing a required section (title, at
least one ingredient category, or at least one instruction step), the
normalizer's parse fails with `MalformedResponseError`; with a model
returning such a reply, the ingest handler never invokes the store's
create and produces no new store state — no partial write. -/
theorem normalize_missing_section_no_write
    (env : Env) (now : Nat) (id : String) (body : RawBody) (st : Store)
    (reply : String)
    (hcanned : ∀ p, env.complete p = reply)
    (hmiss : titleOf (toLines reply) = none ∨
      groupCats (sectionOf (toLines reply) ("Ingredients")) = [] ∨
      stepsOf (toLines reply) = []) :
    parseRecipeResponse reply = .error .MalformedResponseError ∧
    (handlerTrace env now id body st).2.2 = false ∧
    ∀ st', (handlerTrace env now id body st).1 ≠ .ok st' := by
  have hparse : parseRecipeResponse reply = .error .MalformedResponseError := by
    unfold parseRecipeResponse
    simp only []
    rcases hmiss with h | h | h
    · simp [h]
    · cases ht : titleOf (toLines reply) <;> simp [h]
    · cases ht : titleOf (toLines reply)
      · simp
      · simp only []
        by_cases hc : groupCats (sectionOf (toLines reply) ("Ingredients")) = [] <;>
          simp [hc, h]
  refine ⟨hparse, ?_⟩
  cases hp : parseRecipeInput body with
  | error e => simp [handlerTrace, hp]
  | ok parsed =>
    have hg : groqFormatRecipe env parsed.extractedText parsed.sourceUrl =
        .error .MalformedResponseError := by
      unfold groqFormatRecipe
      rw [hcanned, hparse]
    simp [handlerTrace, hp, hg]

/-- C3 witness: with the canned reply missing the Instructions section,
the parse fails with `MalformedResponseError`, the handler's create flag
stays false and no store state is produced. -/
theorem normalize_missing_section_no_write_witness :
    parseRecipeResponse noInstructionsReply = .error .MalformedResponseError ∧
    (handlerTrace envNoInstr 0 ("w3") ⟨none, none, some ("x")⟩ []).2.2 = false ∧
    ∀ st', (handlerTrace envNoInstr 0 ("w3") ⟨none, none, some ("x")⟩ []).1 ≠
      .ok st' :=
  normalize_missing_section_no_write envNoInstr 0 ("w3")
    ⟨none, none, some ("x")⟩ [] noInstructionsReply (fun _ => rfl)
    (Or.inr (Or.inr rfl))

/-- C4: raw image bytes are never persisted — the add flow's resulting
store depends on the image payload only through the OCR-derived text
(two payloads with the same recognized text yield the same store), and
any record the flow persists consists of the normalizer's derived data
plus the optional `sourceUrl`; video input carries a URL only, never
bytes, by construction of `ExtractInput`. -/
theorem image_bytes_not_persisted (env : Env) (now : Nat) (id : String)
    (url : Option String) (st : Store) (b1 b2 : List Nat)
    (h : env.ocr b1 = env.ocr b2) :
    ingestAdd env now id (.image b1) url st =
      ingestAdd env now id (.image b2) url st ∧
    ∀ st', ingestAdd env now id (.image b1) url st = .ok st' →
      ∃ d, st' = st ++ [mkRecipe now id d] ∧ d.sourceUrl = url := by
  constructor
  · unfold ingestAdd extract
    dsimp only
    rw [h]
  · intro st' hok
    unfold ingestAdd extract at hok
    dsimp only at hok
    by_cases hb : strTrim (env.ocr b1) = ""
    · simp [hb] at hok
    · simp only [hb, if_neg, if_false] at hok
      cases hg : groqFormatRecipe env (env.ocr b1) url with
      | error e => simp [hg] at hok
      | ok d =>
        rw [hg] at hok
        exact ⟨d, create_ok_append now id d st st' hok,
          groqFormatRecipe_ok_sourceUrl env (env.ocr b1) url d hg⟩

/-- C4 witness: with a constant-output OCR engine, two different image
payloads produce identical ingest results, and the record persisted for
one of them is the derived data with the given source URL. -/
theorem image_bytes_not_persisted_witness :
    ingestAdd envCanned 7 ("w4") (.image [1, 2, 3]) (some ("https://example.com/r")) [] =
      ingestAdd envCanned 7 ("w4") (.image [9]) (some ("https://example.com/r")) [] ∧
    ∃ d, [] ++ [mkRecipe 7 ("w4") cannedDataUrl] = [] ++ [mkRecipe 7 ("w4") d] ∧
      d.sourceUrl = some ("https://example.com/r") :=
  ⟨(image_bytes_not_persisted envCanned 7 ("w4") (some ("https://example.com/r"))
      [] [1, 2, 3] [9] rfl).1,
   (image_bytes_not_persisted envCanned 7 ("w4") (some ("https://example.com/r"))
      [] [1, 2, 3] [9] rfl).2 ([] ++ [mkRecipe 7 ("w4") cannedDataUrl]) rfl⟩

/-- C5: for text-kind input, non-blank payloads are returned trimmed and
otherwise unchanged; blank payloads fail with `EmptyInputError`; a
successful extraction is never the empty string. -/
theorem extract_text_trimmed (env : Env) (p : String) :
    (strTrim p ≠ "" → extract env (.text p) = .ok (strTrim p)) ∧
    (strTrim p = "" → extract env (.text p) = .error .EmptyInputError) ∧
    ∀ t, extract env (.text p) = .ok t → t ≠ "" := by
  refine ⟨?_, ?_, ?_⟩
  · intro h
    simp [extract, h]
  · intro h
    simp [extract, h]
  · intro t ht
    by_cases h : strTrim p = ""
    · simp [extract, h] at ht
    · simp [extract, h] at ht
      rw [← ht]
      exact h

/-- C5 witness: a non-blank payload comes back trimmed; a blank payload
fails with `EmptyInputError`. -/
theorem extract_text_trimmed_witness :
    extract envCanned (.text ("  hi  ")) = .ok (strTrim ("  hi  ")) ∧
    extract envCanned (.text ("   ")) = .error .EmptyInputError :=
  ⟨(extract_text_trimmed envCanned ("  hi  ")).1 (by decide),
   (extract_text_trimmed envCanned ("   ")).2.1 (by decide)⟩

/-- C6: whenever the web-search provider returns an empty result list,
discover fails with `NoResultsError` with neither the page fetch nor the
normalization invoked. -/
theorem discover_no_results (env : Env) (q : String)
    (h : env.searchWeb q = []) :
    discoverTrace env q = (.error .NoResultsError, false, false) ∧
    discover env q = .error .NoResultsError := by
  constructor
  · unfold discoverTrace
    rw [h]
  · unfold discover discoverTrace
    rw [h]

/-- C6 witness: the canned environment's search returns nothing, so
discover fails with `NoResultsError` and both effect flags stay false. -/
theorem discover_no_results_witness :
    discoverTrace envCanned ("lasagna") = (.error .NoResultsError, false, false) ∧
    discover envCanned ("lasagna") = .error .NoResultsError :=
  discover_no_results envCanned ("lasagna") rfl

/-- C7: update on an absent id fails with `NotFoundError` (no store
state is produced, so the store is unchanged); on a present id, update
fails with an error exactly when the store's create would reject the
merged record against the other records — the same invariants as
creation. -/
theorem update_notfound_same_invariants (now : Nat) (id : String)
    (f : UpdateFields) (st : Store) :
    ((∀ r ∈ st, r.id ≠ id) → update now id f st = .error .NotFoundError) ∧
    ∀ old, st.find? (fun r => r.id = id) = some old →
      ∀ e, (update now id f st = .error e ↔
        create now id (applyFields old f)
          (st.filter (fun r => r.id ≠ id)) = .error e) := by
  constructor
  · intro habs
    have hfind : st.find? (fun r => r.id = id) = none := by
      rw [List.find?_eq_none]
      intro r hr
      simp [habs r hr]
    unfold update
    rw [hfind]
  · intro old hold e
    unfold update create
    rw [hold]
    dsimp only
    cases hc : checkInvariants (st.filter (fun r => r.id ≠ id))
        (applyFields old f) <;> simp [hc]

/-- C7 witness: on a store holding only the "Lasagna" record, updating
an absent id fails with `NotFoundError`, and an update emptying the
title fails exactly as the equivalent create on the other records
does. -/
theorem update_notfound_same_invariants_witness :
    update 2 ("zz") ⟨none, none, none, none⟩ [lasagnaRec] = .error .NotFoundError ∧
    (update 2 ("id0") ⟨some (""), none, none, none⟩ [lasagnaRec] =
        .error .InvalidRecordError ↔
      create 2 ("id0") (applyFields lasagnaRec ⟨some (""), none, none, none⟩)
        ([lasagnaRec].filter (fun r => r.id ≠ ("id0"))) =
        .error .InvalidRecordError) :=
  ⟨(update_notfound_same_invariants 2 ("zz") ⟨none, none, none, none⟩
      [lasagnaRec]).1 (by decide),
   (update_notfound_same_invariants 2 ("id0") ⟨some (""), none, none, none⟩
      [lasagnaRec]).2 lasagnaRec rfl .InvalidRecordError⟩

/-- C8: the sign-in check admits exactly one user — it returns true if
and only if the profile's email is present and equals the configured
`ALLOWED_EMAIL` value; any other email, and an absent email, is
rejected. -/
theorem signIn_single_user (e : Option String) (a : String) :
    signIn e a = true ↔ e = some a := by
  cases e <;> simp [signIn]

/-- C9: the ingest route accepts an empty `extractedText` — the body
parses successfully, the handler proceeds to invoke normalization, and
when normalization succeeds it reaches the store's create; the request
is never rejected with a validation error. -/
theorem blank_text_passes_boundary (env : Env) (now : Nat) (id : String)
    (st : Store) :
    parseRecipeInput bodyBlank = .ok ⟨none, none, ""⟩ ∧
    (handlerTrace env now id bodyBlank st).2.1 = true ∧
    (∀ d, groqFormatRecipe env ("") none = .ok d →
      (handlerTrace env now id bodyBlank st).2.2 = true) ∧
    ∀ e, handler env now id bodyBlank st = .error e →
      e ≠ .ValidationError := by
  have hp : parseRecipeInput bodyBlank = .ok ⟨none, none, ""⟩ := rfl
  refine ⟨hp, ?_, ?_, ?_⟩
  · cases hg : groqFormatRecipe env ("") none <;>
      simp [handlerTrace, parseRecipeInput, bodyBlank, hg]
  · intro d hd
    simp [handlerTrace, parseRecipeInput, bodyBlank, hd]
  · intro e he
    unfold handler at he
    cases hg : groqFormatRecipe env ("") none with
    | error e' =>
      simp [handlerTrace, parseRecipeInput, bodyBlank, hg] at he
      rw [← he]
      have := groqFormatRecipe_error_malformed env ("") none e' hg
      rw [this]
      simp
    | ok d =>
      simp [handlerTrace, parseRecipeInput, bodyBlank, hg] at he
      rcases create_error_kinds now id d st e he with h | h <;> rw [h] <;> simp

/-- C9 witness: with the canned good model reply, the blank-text request
reaches create (flag true); and with the duplicate record already
stored, the route's resulting `DuplicateTitleError` is not a validation
error. -/
theorem blank_text_passes_boundary_witness :
    (handlerTrace envCanned 0 ("w9") bodyBlank []).2.2 = true ∧
    Err.DuplicateTitleError ≠ Err.ValidationError :=
  ⟨(blank_text_passes_boundary envCanned 0 ("w9") []).2.2.1 cannedDataNone rfl,
   (blank_text_passes_boundary envCanned 0 ("w9")
      [mkRecipe 0 ("x") cannedDataNone]).2.2.2 .DuplicateTitleError rfl⟩

/-- C10: whenever an ingest body carries a `sourceUrl`, validation
succeeds only for a well-formed URL, so every recipe the ingest route
persists has either no `sourceUrl` or a well-formed one. -/
theorem ingest_sourceUrl_wellformed (b : RawBody) :
    (∀ inp, parseRecipeInput b = .ok inp →
      inp.sourceUrl = none ∨
        ∃ u, inp.sourceUrl = some u ∧ isValidUrl u = true) ∧
    ∀ env now id st st', handler env now id b st = .ok st' →
      ∃ d, st' = st ++ [mkRecipe now id d] ∧
        (d.sourceUrl = none ∨
          ∃ u, d.sourceUrl = some u ∧ isValidUrl u = true) := by
  have hmain : ∀ inp, parseRecipeInput b = .ok inp →
      inp.sourceUrl = none ∨
        ∃ u, inp.sourceUrl = some u ∧ isValidUrl u = true := by
    intro inp h
    unfold parseRecipeInput at h
    cases hx : b.extractedText <;> rw [hx] at h
    · simp at h
    · cases hs : b.sourceUrl <;> rw [hs] at h
      · simp at h
        rw [← h]
        exact Or.inl rfl
      · rename_i u
        by_cases hu : isValidUrl u = true
        · simp [hu] at h
          rw [← h]
          exact Or.inr ⟨u, rfl, hu⟩
        · simp [hu] at h
  refine ⟨hmain, ?_⟩
  intro env now id st st' h
  unfold handler handlerTrace at h
  cases hp : parseRecipeInput b <;> rw [hp] at h
  · simp at h
  · rename_i parsed
    dsimp only at h
    cases hg : groqFormatRecipe env parsed.extractedText parsed.sourceUrl <;>
      rw [hg] at h
    · simp at h
    · rename_i d
      dsimp only at h
      refine ⟨d, create_ok_append now id d st st' h, ?_⟩
      rw [groqFormatRecipe_ok_sourceUrl env parsed.extractedText
        parsed.sourceUrl d hg]
      exact hmain parsed hp

/-- C10 witness: the body carrying "https://example.com/r" validates
with a well-formed URL, and the record the route persists from it on the
empty store carries that URL. -/
theorem ingest_sourceUrl_wellformed_witness :
    ((⟨none, some ("https://example.com/r"), "Tomato pasta"⟩ : RecipeInput).sourceUrl = none ∨
      ∃ u, (⟨none, some ("https://example.com/r"), "Tomato pasta"⟩ : RecipeInput).sourceUrl = some u ∧
        isValidUrl u = true) ∧
    ∃ d, [] ++ [mkRecipe 0 ("w10") cannedDataUrl] = [] ++ [mkRecipe 0 ("w10") d] ∧
      (d.sourceUrl = none ∨
        ∃ u, d.sourceUrl = some u ∧ isValidUrl u = true) :=
  ⟨(ingest_sourceUrl_wellformed urlBody).1
      ⟨none, some ("https://example.com/r"), "Tomato pasta"⟩ rfl,
   (ingest_sourceUrl_wellformed urlBody).2 envCanned 0 ("w10") []
      ([] ++ [mkRecipe 0 ("w10") cannedDataUrl]) rfl⟩

end ChefDigital
